import Mathlib

/-!
# Motor control task (`task_motor.cpp`)

A shallow embedding of `task_motor::task_motor`, `task_motor::run` and
`task_motor::print_status`, followed by the properties of the task that can be
settled on it.

Conventions of the embedding:

* machine integers are `Nat` / `Int` with explicit wrap-around (`% 256`,
  `% 65536`); the target is an 8-bit AVR, where `int` and `unsigned int` are
  16 bits wide and `uint16_t` operands therefore stay unsigned;
* a pointer is an address (`Ptr`), `0` being the null pointer;
* calls on the external collaborators (shared data containers, A/D converter,
  motor driver) are recorded as `Event`s in a chronological trace; what those
  calls answer is supplied by an `Env`, one per pass of the task loop;
* `run` never returns (`for (;;)`), so it is modelled by its set-up followed
  by any finite number of passes of the loop body.
-/

namespace TaskMotor

/-! ## Data model -/

/-- An address; `0` is the null pointer. -/
abbrev Ptr := Nat

/-- The argument expression handed to `motor_driver::set_power`. -/
inductive Arg where
  /-- an integer expression, converted to the signed 16-bit parameter -/
  | int16 (v : Int)
  /-- a pointer handed over as it is (no `->get()` applied to it) -/
  | ptr (p : Ptr)
  deriving DecidableEq, Repr

/-- Calls on the collaborators and register writes, in the order they happen. -/
inductive Event where
  /-- the allocation `new adc (p_serial)` -/
  | new_adc
  /-- a write of `v` to the output register `PORTC` -/
  | write_PORTC (v : Nat)
  /-- a call `p->get ()` on the `shared_data<bool>` at `p` -/
  | get_bool (p : Ptr)
  /-- a call `p->get ()` on the `shared_data<int16_t>` at `p` -/
  | get_int16 (p : Ptr)
  /-- a call `p_my_adc->read_once (ch)` -/
  | read_once (ch : Nat)
  /-- a call `driver->brake ()` -/
  | brake
  /-- a call `driver->set_power (a)` -/
  | set_power (a : Arg)
  deriving DecidableEq, Repr

/-- The fields of a `task_motor` object. `runs` is inherited from `frt_task`;
the other five are the ones the constructor assigns. -/
structure task_motor where
  runs : Nat
  brake_pin : Nat
  driver : Ptr
  brake : Ptr
  power : Ptr
  pot : Ptr
  deriving DecidableEq, Repr

/-- What the outside world looks like during one pass of the task loop. -/
structure Env where
  /-- value read from the 8-bit input register `PINC` -/
  PINC : Nat
  /-- current contents of the `shared_data<bool>` container at an address -/
  bools : Ptr → Bool
  /-- current contents of the `shared_data<int16_t>` container at an address -/
  ints : Ptr → Int
  /-- raw sample `adc::read_once` returns for a channel -/
  adc_sample : Nat → Nat

/-- Machine state of `run`: the task object, the output register, the local
`a2d_reading` and the trace of events so far. -/
structure State where
  self : task_motor
  PORTC : Nat
  a2d_reading : Nat
  trace : List Event

/-! ## Constructor -/

/-- The constructor `task_motor::task_motor`. `base_runs` is the value the
parent constructor `frt_task (...)` leaves in `runs`; the `uint8_t` parameter
`brake_mask` is stored in `brake_pin`. -/
def task_motor.ctor (base_runs : Nat) (brake_mask : Nat)
    (p_driver p_brake p_power p_pot : Ptr) : task_motor :=
  { runs := base_runs
    brake_pin := brake_mask % 256
    driver := p_driver
    brake := p_brake
    power := p_power
    pot := p_pot }

/-! ## The task body `run` -/

/-- Record one event at the end of the trace. -/
def emit (ev : Event) (s : State) : State :=
  { s with trace := s.trace ++ [ev] }

/-- The test `PINC & (1 << brake_pin)` of the loop condition, as a truth
value. The shift is the mathematical one, which is what C computes whenever
`1 << brake_pin` is representable in an `int`. -/
def brake_pin_set (PINC brake_pin : Nat) : Bool :=
  (PINC &&& (1 <<< brake_pin)) != 0

/-- Conversion of a 16-bit pattern to `int16_t` (two's complement). -/
def to_int16 (n : Nat) : Int :=
  if n % 65536 < 32768 then ((n % 65536 : Nat) : Int)
  else ((n % 65536 : Nat) : Int) - 65536

/-- The expression `(a2d_reading / 2) - 255` as `set_power` receives it:
evaluated in 16-bit unsigned arithmetic, then converted to `int16_t`. -/
def pot_power (a2d_reading : Nat) : Int :=
  to_int16 ((a2d_reading / 2 + (65536 - 255)) % 65536)

/-- The statements of `run` before the loop:
`adc *p_my_adc = new adc (p_serial); PORTC |= (1 << 3) | (1 << 4);` -/
def run_setup (s : State) : State :=
  let s1 := emit Event.new_adc s
  let v := (s1.PORTC ||| ((1 <<< 3) ||| (1 <<< 4))) % 256
  emit (Event.write_PORTC v) { s1 with PORTC := v }

/-- One pass of the body of `for (;;)` in `run`. The `||` is short-circuit:
`brake->get ()` is only called when the pin test is false. `if (pot)` tests
the pointer `pot`; `set_power (power)` is handed the pointer `power`. -/
def loop_body (e : Env) (s : State) : State :=
  if brake_pin_set e.PINC s.self.brake_pin then
    emit Event.brake s
  else
    let s1 := emit (Event.get_bool s.self.brake) s
    if e.bools s1.self.brake then
      emit Event.brake s1
    else if s1.self.pot ≠ 0 then
      let s2 := { emit (Event.read_once 0) s1 with
                  a2d_reading := e.adc_sample 0 % 65536 }
      emit (Event.set_power (Arg.int16 (pot_power s2.a2d_reading))) s2
    else
      emit (Event.set_power (Arg.ptr s1.self.power)) s1

/-- The first `n` passes of the loop; pass number `i` sees `envs i`. -/
def run_loop (envs : Nat → Env) : Nat → State → State
  | 0, s => s
  | n + 1, s => loop_body (envs n) (run_loop envs n s)

/-- The task body up to the end of its `n`-th pass of the loop. The
`delay (100)` written after the loop is never reached. -/
def run (envs : Nat → Env) (n : Nat) (s : State) : State :=
  run_loop envs n (run_setup s)

/-- The events one pass of the loop adds to the trace. -/
def pass_events (e : Env) (s : State) : List Event :=
  (loop_body e s).trace.drop s.trace.length

/-! ## Status report -/

/-- The method `task_motor::print_status`, returning the task object and the
stream contents afterwards. `frt_report t` is the text
`frt_task::print_status` writes for the task and `num` is the stream's
rendering of an unsigned number; both belong to the base library. -/
def print_status (frt_report : task_motor → String) (num : Nat → String)
    (t : task_motor) (ser_thing : String) : task_motor × String :=
  let ser1 := ser_thing ++ frt_report t
  (t, ser1 ++ "\t " ++ num t.runs ++ " runs")

/-! ## Vocabulary of the properties -/

/-- The driver commands among the events. -/
def is_driver_command : Event → Bool
  | Event.brake => true
  | Event.set_power _ => true
  | _ => false

/-- The calls of `set_power` among the events. -/
def is_set_power : Event → Bool
  | Event.set_power _ => true
  | _ => false

/-- The A/D conversions among the events. -/
def is_adc_read : Event → Bool
  | Event.read_once _ => true
  | _ => false

/-- The reads of a shared 16-bit value among the events. -/
def is_power_get : Event → Bool
  | Event.get_int16 _ => true
  | _ => false

/-- The writes to `PORTC` among the events. -/
def is_PORTC_write : Event → Bool
  | Event.write_PORTC _ => true
  | _ => false

/-- The pot-select flag reads `b`: the task's `pot` pointer refers to a
shared container and that container currently holds `b`. -/
def pot_select_is (e : Env) (t : task_motor) (b : Bool) : Prop :=
  t.pot ≠ 0 ∧ e.bools t.pot = b

instance (e : Env) (t : task_motor) (b : Bool) : Decidable (pot_select_is e t b) := by
  unfold pot_select_is; infer_instance

/-- Neither brake source is active: the pin test is false and the shared
brake flag reads false. -/
def no_brake (e : Env) (t : task_motor) : Prop :=
  brake_pin_set e.PINC t.brake_pin = false ∧ e.bools t.brake = false

instance (e : Env) (t : task_motor) : Decidable (no_brake e t) := by
  unfold no_brake; infer_instance

/-! ## Sample inputs -/

/-- A task on brake pin 0 whose four pointers are all bound. -/
def sample_task : task_motor :=
  task_motor.ctor 0 0 0x200 0x210 0x220 0x230

/-- The same task constructed with a null `p_pot`. -/
def sample_task_no_pot : task_motor :=
  task_motor.ctor 0 0 0x200 0x210 0x220 0

/-- A state at the top of the loop for `sample_task`. -/
def sample_state : State :=
  { self := sample_task, PORTC := 0x18, a2d_reading := 0, trace := [] }

/-- No button pressed, brake flag false, pot-select flag `pot_val`, shared
power 100, A/D sample `sample` on every channel. -/
def sample_env (pot_val : Bool) (sample : Nat) : Env :=
  { PINC := 0
    bools := fun p => if p = 0x230 then pot_val else false
    ints := fun _ => 100
    adc_sample := fun _ => sample }

/-! ## Basic facts about the embedding -/

theorem emit_trace (ev : Event) (s : State) :
    (emit ev s).trace = s.trace ++ [ev] := rfl

/-- The events of one pass, branch by branch. -/
theorem pass_events_eq (e : Env) (s : State) :
    pass_events e s =
      if brake_pin_set e.PINC s.self.brake_pin then [Event.brake]
      else if e.bools s.self.brake then [Event.get_bool s.self.brake, Event.brake]
      else if s.self.pot ≠ 0 then
        [Event.get_bool s.self.brake, Event.read_once 0,
          Event.set_power (Arg.int16 (pot_power (e.adc_sample 0 % 65536)))]
      else [Event.get_bool s.self.brake, Event.set_power (Arg.ptr s.self.power)] := by
  unfold pass_events loop_body
  by_cases h1 : brake_pin_set e.PINC s.self.brake_pin = true
  · simp [emit, h1]
  · by_cases h2 : e.bools s.self.brake = true
    · simp [emit, h1, h2]
    · by_cases h3 : s.self.pot = 0
      · simp [emit, h1, h2, h3]
      · simp [emit, h1, h2, h3]

theorem loop_body_trace (e : Env) (s : State) :
    (loop_body e s).trace = s.trace ++ pass_events e s := by
  unfold pass_events loop_body
  by_cases h1 : brake_pin_set e.PINC s.self.brake_pin = true
  · simp [emit, h1]
  · by_cases h2 : e.bools s.self.brake = true
    · simp [emit, h1, h2]
    · by_cases h3 : s.self.pot = 0
      · simp [emit, h1, h2, h3]
      · simp [emit, h1, h2, h3]

theorem loop_body_self (e : Env) (s : State) : (loop_body e s).self = s.self := by
  unfold loop_body
  by_cases h1 : brake_pin_set e.PINC s.self.brake_pin = true
  · simp [emit, h1]
  · by_cases h2 : e.bools s.self.brake = true
    · simp [emit, h1, h2]
    · by_cases h3 : s.self.pot = 0
      · simp [emit, h1, h2, h3]
      · simp [emit, h1, h2, h3]

theorem loop_body_PORTC (e : Env) (s : State) : (loop_body e s).PORTC = s.PORTC := by
  unfold loop_body
  by_cases h1 : brake_pin_set e.PINC s.self.brake_pin = true
  · simp [emit, h1]
  · by_cases h2 : e.bools s.self.brake = true
    · simp [emit, h1, h2]
    · by_cases h3 : s.self.pot = 0
      · simp [emit, h1, h2, h3]
      · simp [emit, h1, h2, h3]

/-! ## Properties of the power computation -/

theorem pot_power_eq (r : Nat) (hr : r < 65536) :
    pot_power r = ((r / 2 : Nat) : Int) - 255 := by
  unfold pot_power to_int16
  split_ifs <;> omega

theorem pass_events_no_PORTC_write (e : Env) (s : State) :
    (pass_events e s).countP is_PORTC_write = 0 := by
  rw [pass_events_eq]
  by_cases h1 : brake_pin_set e.PINC s.self.brake_pin = true
  · simp [h1, is_PORTC_write]
  · by_cases h2 : e.bools s.self.brake = true
    · simp [h1, h2, is_PORTC_write]
    · by_cases h3 : s.self.pot = 0
      · simp [h1, h2, h3, is_PORTC_write]
      · simp [h1, h2, h3, is_PORTC_write]

theorem run_loop_self (envs : Nat → Env) (n : Nat) (s : State) :
    (run_loop envs n s).self = s.self := by
  induction n with
  | zero => rfl
  | succ k ih => rw [run_loop, loop_body_self, ih]

theorem run_loop_PORTC (envs : Nat → Env) (n : Nat) (s : State) :
    (run_loop envs n s).PORTC = s.PORTC := by
  induction n with
  | zero => rfl
  | succ k ih => rw [run_loop, loop_body_PORTC, ih]

theorem run_loop_trace (envs : Nat → Env) (n : Nat) (s : State) :
    ∃ evs : List Event, (run_loop envs n s).trace = s.trace ++ evs ∧
      evs.countP is_PORTC_write = 0 := by
  induction n with
  | zero => exact ⟨[], by simp [run_loop], rfl⟩
  | succ k ih =>
    obtain ⟨evs, h1, h2⟩ := ih
    refine ⟨evs ++ pass_events (envs k) (run_loop envs k s), ?_, ?_⟩
    · rw [run_loop, loop_body_trace, h1, List.append_assoc]
    · rw [List.countP_append, h2, pass_events_no_PORTC_write]

theorem run_setup_self (s : State) : (run_setup s).self = s.self := rfl

theorem run_setup_PORTC (s : State) (h : s.PORTC < 256) :
    (run_setup s).PORTC = s.PORTC ||| 0x18 := by
  have hlt : s.PORTC ||| 0x18 < 2 ^ 8 := Nat.or_lt_two_pow (by simpa using h) (by decide)
  have h24 : ((1 : Nat) <<< 3) ||| (1 <<< 4) = 0x18 := by decide
  show (s.PORTC ||| ((1 <<< 3) ||| (1 <<< 4))) % 256 = s.PORTC ||| 0x18
  rw [h24]
  exact Nat.mod_eq_of_lt (by simpa using hlt)

theorem run_setup_trace (s : State) :
    (run_setup s).trace =
      s.trace ++ [Event.new_adc,
        Event.write_PORTC ((s.PORTC ||| ((1 <<< 3) ||| (1 <<< 4))) % 256)] := by
  simp [run_setup, emit]

theorem testBit_0x18 (i : Nat) : Nat.testBit 0x18 i = decide (i = 3 ∨ i = 4) := by
  have h : (0x18 : Nat) = 2 ^ 3 ||| 2 ^ 4 := by decide
  rw [h, Nat.testBit_or, Nat.testBit_two_pow, Nat.testBit_two_pow]
  by_cases h3 : i = 3
  · simp [h3]
  · by_cases h4 : i = 4
    · simp [h4]
    · have h3b : ¬ 3 = i := fun h => h3 h.symm
      have h4b : ¬ 4 = i := fun h => h4 h.symm
      simp [h3, h4, h3b, h4b]

theorem brake_pin_set_eq_testBit (p m : Nat) : brake_pin_set p m = p.testBit m := by
  unfold brake_pin_set
  rw [Nat.one_shiftLeft, Nat.and_two_pow]
  cases h : p.testBit m
  · simp
  · simp

/-! ## The brake decision -/

/-- C1: one pass of the task loop calls the driver's brake operation exactly
when the pin test on `PINC` is true or the shared brake flag reads true,
whatever the pot pointer, the pot-select flag and the shared power are; it
then calls it once. -/
theorem brake_iff_pin_or_flag (e : Env) (s : State) :
    (Event.brake ∈ pass_events e s ↔
      (brake_pin_set e.PINC s.self.brake_pin = true ∨ e.bools s.self.brake = true)) ∧
    (pass_events e s).count Event.brake =
      if brake_pin_set e.PINC s.self.brake_pin || e.bools s.self.brake then 1 else 0 := by
  rw [pass_events_eq]
  by_cases h1 : brake_pin_set e.PINC s.self.brake_pin = true
  · simp [h1]
  · by_cases h2 : e.bools s.self.brake = true
    · simp [h1, h2]
    · by_cases h3 : s.self.pot = 0
      · simp [h1, h2, h3]
      · simp [h1, h2, h3]

/-- C8: every pass of the task loop issues exactly one driver command, either
one `brake ()` and no `set_power`, or one `set_power` and no `brake ()`. -/
theorem one_driver_command_per_pass (e : Env) (s : State) :
    (pass_events e s).countP is_driver_command = 1 ∧
    (((pass_events e s).count Event.brake = 1 ∧
        (pass_events e s).countP is_set_power = 0) ∨
     ((pass_events e s).count Event.brake = 0 ∧
        (pass_events e s).countP is_set_power = 1)) := by
  rw [pass_events_eq]
  by_cases h1 : brake_pin_set e.PINC s.self.brake_pin = true
  · simp [h1, is_driver_command, is_set_power]
  · by_cases h2 : e.bools s.self.brake = true
    · simp [h1, h2, is_driver_command, is_set_power]
    · by_cases h3 : s.self.pot = 0
      · simp [h1, h2, h3, is_driver_command, is_set_power]
      · simp [h1, h2, h3, is_driver_command, is_set_power]

/-! ## Potentiometer mode -/

/-- C2: for a raw reading `r` held in the 16-bit `a2d_reading`, the power
handed to `set_power` in potentiometer mode is the integer `r / 2 - 255`
(floor division), which fits a signed 16-bit value; reading 0 gives -255 and
reading 1022 gives 256. -/
theorem pot_power_exact (r : Nat) (hr : r < 65536) (e : Env) (s : State)
    (hb : no_brake e s.self) (hp : s.self.pot ≠ 0) (hs : e.adc_sample 0 = r) :
    pot_power r = ((r / 2 : Nat) : Int) - 255 ∧
    -32768 ≤ ((r / 2 : Nat) : Int) - 255 ∧ ((r / 2 : Nat) : Int) - 255 ≤ 32767 ∧
    (loop_body e s).a2d_reading = r ∧
    pass_events e s =
      [Event.get_bool s.self.brake, Event.read_once 0,
        Event.set_power (Arg.int16 (((r / 2 : Nat) : Int) - 255))] ∧
    pot_power 0 = -255 ∧ pot_power 1022 = 256 := by
  obtain ⟨hb1, hb2⟩ := hb
  have hmod : r % 65536 = r := Nat.mod_eq_of_lt hr
  refine ⟨pot_power_eq r hr, by omega, by omega, ?_, ?_, by decide, by decide⟩
  · unfold loop_body
    simp [emit, hb1, hb2, hp, hs, hmod]
  · rw [pass_events_eq]
    simp [hb1, hb2, hp, hs, hmod, pot_power_eq r hr]

theorem pot_power_exact_witness :
    (1022 < 65536 ∧ no_brake (sample_env true 1022) sample_state.self ∧
      sample_state.self.pot ≠ 0 ∧ (sample_env true 1022).adc_sample 0 = 1022) ∧
    pass_events (sample_env true 1022) sample_state =
      [Event.get_bool sample_state.self.brake, Event.read_once 0,
        Event.set_power (Arg.int16 (((1022 / 2 : Nat) : Int) - 255))] :=
  ⟨by decide,
   (pot_power_exact 1022 (by decide) (sample_env true 1022) sample_state
      (by decide) (by decide) rfl).2.2.2.2.1⟩

/-- C10: on the 10-bit range 0..1023 the potentiometer power lies in
[-255, 256], never decreases when the reading grows, is -255 at readings 0
and 1 and 256 at readings 1022 and 1023; the forward maximum is one more than
the reverse maximum magnitude. -/
theorem pot_power_range (r1 r2 : Nat) (h12 : r1 ≤ r2) (h2 : r2 ≤ 1023) :
    (-255 ≤ pot_power r1 ∧ pot_power r1 ≤ pot_power r2 ∧ pot_power r2 ≤ 256) ∧
    (pot_power 0 = -255 ∧ pot_power 1 = -255) ∧
    (pot_power 1022 = 256 ∧ pot_power 1023 = 256) ∧
    pot_power 1023 = -(pot_power 0) + 1 := by
  have e1 := pot_power_eq r1 (by omega)
  have e2 := pot_power_eq r2 (by omega)
  refine ⟨⟨?_, ?_, ?_⟩, by decide, by decide, by decide⟩ <;> omega

theorem pot_power_range_witness :
    ((300 : Nat) ≤ 700 ∧ (700 : Nat) ≤ 1023) ∧
    (-255 ≤ pot_power 300 ∧ pot_power 300 ≤ pot_power 700 ∧ pot_power 700 ≤ 256) :=
  ⟨by decide, (pot_power_range 300 700 (by decide) (by decide)).1⟩

/-- C4: in a pass where neither brake source is active and the pot-select
flag is true, the A/D converter is read exactly once, on channel 0, the
sample is stored in the 16-bit `a2d_reading`, `set_power` is called exactly
once with the integer `a2d_reading / 2 - 255` (floor division) computed from
that sample, and the shared power value is neither read nor of any
influence. -/
theorem pot_mode_samples_once (e : Env) (s : State)
    (hb : no_brake e s.self) (hp : pot_select_is e s.self true) :
    pass_events e s =
      [Event.get_bool s.self.brake, Event.read_once 0,
        Event.set_power
          (Arg.int16 (((e.adc_sample 0 % 65536 / 2 : Nat) : Int) - 255))] ∧
    (loop_body e s).a2d_reading = e.adc_sample 0 % 65536 ∧
    (pass_events e s).countP is_adc_read = 1 ∧
    (pass_events e s).count (Event.read_once 0) = 1 ∧
    (pass_events e s).countP is_set_power = 1 ∧
    (pass_events e s).countP is_power_get = 0 ∧
    ∀ ints2 : Ptr → Int, pass_events { e with ints := ints2 } s = pass_events e s := by
  obtain ⟨hb1, hb2⟩ := hb
  obtain ⟨hp1, _⟩ := hp
  have hlt : e.adc_sample 0 % 65536 < 65536 := Nat.mod_lt _ (by decide)
  have hval := pot_power_eq (e.adc_sample 0 % 65536) hlt
  have key : ∀ e2 : Env, e2.PINC = e.PINC → e2.bools = e.bools →
      e2.adc_sample = e.adc_sample →
      pass_events e2 s =
        [Event.get_bool s.self.brake, Event.read_once 0,
          Event.set_power
            (Arg.int16 (((e.adc_sample 0 % 65536 / 2 : Nat) : Int) - 255))] := by
    intro e2 h1 h2 h3
    rw [pass_events_eq, ← hval]
    simp [h1, h2, h3, hb1, hb2, hp1]
  have h0 := key e rfl rfl rfl
  refine ⟨h0, ?_, ?_, ?_, ?_, ?_, ?_⟩
  · unfold loop_body
    simp [emit, hb1, hb2, hp1]
  · simp [h0, is_adc_read]
  · simp [h0]
  · simp [h0, is_set_power]
  · simp [h0, is_power_get]
  · intro ints2
    rw [h0]
    exact key _ rfl rfl rfl

theorem pot_mode_samples_once_witness :
    (no_brake (sample_env true 512) sample_state.self ∧
      pot_select_is (sample_env true 512) sample_state.self true) ∧
    pass_events (sample_env true 512) sample_state =
      [Event.get_bool 0x210, Event.read_once 0, Event.set_power (Arg.int16 1)] :=
  ⟨by decide,
   (pot_mode_samples_once (sample_env true 512) sample_state (by decide) (by decide)).1⟩

/-! ## Shared-power mode -/

/-- C3: with no brake source active, the pot-select flag false and the shared
power at 100, the pass still samples the A/D converter and sets the power
computed from the sample (here 1), because `if (pot)` tests the pointer and
not the flag; and when the `pot` pointer is null, `set_power` is handed the
pointer `power`, not the value the shared container holds. -/
theorem pot_flag_false_still_samples :
    (no_brake (sample_env false 512) sample_task ∧
      pot_select_is (sample_env false 512) sample_task false ∧
      (sample_env false 512).ints sample_task.power = 100) ∧
    pass_events (sample_env false 512) sample_state =
      [Event.get_bool 0x210, Event.read_once 0, Event.set_power (Arg.int16 1)] ∧
    pass_events (sample_env false 512) { sample_state with self := sample_task_no_pot } =
      [Event.get_bool 0x210, Event.set_power (Arg.ptr 0x220)] := by
  decide

/-! ## The set-up before the loop -/

/-- C9: for an 8-bit `PORTC` holding `v`, the set-up of `run` leaves
`v ||| 0x18` in it (bits 3 and 4 set, every other bit as before); the write
happens once, before the first pass, and no pass of the loop writes the
register again. -/
theorem setup_sets_bits_3_4 (v : Nat) (hv : v < 256) (s : State) (hs : s.PORTC = v)
    (envs : Nat → Env) (n : Nat) :
    (run_setup s).PORTC = v ||| 0x18 ∧
    (run envs n s).PORTC = v ||| 0x18 ∧
    (∀ i : Nat, (v ||| 0x18).testBit i = (decide (i = 3 ∨ i = 4) || v.testBit i)) ∧
    ∃ evs : List Event,
      (run envs n s).trace =
        s.trace ++ [Event.new_adc, Event.write_PORTC (v ||| 0x18)] ++ evs ∧
      evs.countP is_PORTC_write = 0 := by
  subst hs
  have hset := run_setup_PORTC s hv
  refine ⟨hset, ?_, ?_, ?_⟩
  · unfold run
    rw [run_loop_PORTC, hset]
  · intro i
    rw [Nat.testBit_or, testBit_0x18, Bool.or_comm]
  · obtain ⟨evs, h1, h2⟩ := run_loop_trace envs n (run_setup s)
    refine ⟨evs, ?_, h2⟩
    unfold run
    rw [h1, run_setup_trace]
    have hv2 : (s.PORTC ||| ((1 <<< 3) ||| (1 <<< 4))) % 256 = s.PORTC ||| 0x18 := hset
    rw [hv2]

theorem setup_sets_bits_3_4_witness :
    ((0x41 : Nat) < 256 ∧ ({ sample_state with PORTC := 0x41 } : State).PORTC = 0x41) ∧
    (run (fun _ => sample_env true 512) 2 { sample_state with PORTC := 0x41 }).PORTC =
      0x41 ||| 0x18 :=
  ⟨by decide,
   (setup_sets_bits_3_4 0x41 (by decide) { sample_state with PORTC := 0x41 } rfl
      (fun _ => sample_env true 512) 2).2.1⟩

/-! ## The brake pin parameter -/

/-- C7 (as stated): with the constructor given the mask 0x01 and `PINC`
reading 0x01, `PINC AND mask` is non-zero but the pin test of the loop is
false, since the test made is `PINC & (1 << 1)`. -/
theorem brake_value_not_used_as_mask :
    ¬ (brake_pin_set 0x01 (task_motor.ctor 0 0x01 0x200 0x210 0x220 0x230).brake_pin = true ↔
        (0x01 &&& 0x01 : Nat) ≠ 0) := by
  decide

/-- C7 (amended): the value given to the constructor is used as a bit number:
for every `m` in 0..7 passed as `brake_mask` and every `PINC` value `p`, the
pin test is true exactly when `p AND (1 << m)` is non-zero, that is when bit
number `m` of the register is set. -/
theorem brake_value_is_bit_number (m : Nat) (hm : m < 8) (p : Nat)
    (base_runs : Nat) (p_driver p_brake p_power p_pot : Ptr) :
    (brake_pin_set p
        (task_motor.ctor base_runs m p_driver p_brake p_power p_pot).brake_pin = true ↔
      p &&& (1 <<< m) ≠ 0) ∧
    brake_pin_set p
        (task_motor.ctor base_runs m p_driver p_brake p_power p_pot).brake_pin =
      p.testBit m := by
  have hmod : m % 256 = m := Nat.mod_eq_of_lt (by omega)
  have hpin : (task_motor.ctor base_runs m p_driver p_brake p_power p_pot).brake_pin = m := hmod
  rw [hpin]
  refine ⟨?_, brake_pin_set_eq_testBit p m⟩
  unfold brake_pin_set
  simp

theorem brake_value_is_bit_number_witness :
    (2 : Nat) < 8 ∧
    brake_pin_set 0x04 (task_motor.ctor 0 2 0x200 0x210 0x220 0x230).brake_pin =
      Nat.testBit 0x04 2 :=
  ⟨by decide, (brake_value_is_bit_number 2 (by decide) 0x04 0 0x200 0x210 0x220 0x230).2⟩

/-! ## The status report -/

/-- C6: `print_status` leaves the task object as it was and appends to the
stream the parent's report first, then a tab and a blank, the value of `runs`
and, last, the text " runs". -/
theorem print_status_text (frt_report : task_motor → String) (num : Nat → String)
    (t : task_motor) (ser_thing : String) :
    (print_status frt_report num t ser_thing).1 = t ∧
    (print_status frt_report num t ser_thing).2 =
      ser_thing ++ (frt_report t ++ ("\t " ++ (num t.runs ++ " runs"))) := by
  simp [print_status, String.append_assoc]

/-- C5: no pass of the loop changes `runs`: after any number of passes the
status report is the one that would have been written before the task body
started; after three passes of a task created with `runs = 0` the count is
still 0. -/
theorem runs_not_counted (frt_report : task_motor → String) (num : Nat → String)
    (envs : Nat → Env) (n : Nat) (s : State) (ser_thing : String) :
    (run envs n s).self.runs = s.self.runs ∧
    print_status frt_report num (run envs n s).self ser_thing =
      print_status frt_report num s.self ser_thing ∧
    (run (fun _ => sample_env true 512) 3 sample_state).self.runs = 0 := by
  have h : ∀ (es : Nat → Env) (k : Nat) (st : State), (run es k st).self = st.self := by
    intro es k st
    unfold run
    rw [run_loop_self, run_setup_self]
  refine ⟨by rw [h], by rw [h], ?_⟩
  rw [h]
  rfl

end TaskMotor
